/-
Verification of the telepresence bridge-provisioning spec against the
two source files of the repository:

  * telepresence/proxy/deployment.py  (deployment provisioner)
  * local-docker/entrypoint.py        (proxy / wait entrypoint)

Shallow embedding: each Python function relevant to the claims is
translated into a Lean definition; stateful sequences become explicit
state passing or event traces; fallible code returns Except / Option.
-/
import Mathlib

namespace Telepresence

/-! ## String primitives

Lean's built-in `String.toLower`, `String.split`, `String.splitOn`,
`String.startsWith` and `String.take` are implemented over byte
positions and do not reduce inside the kernel, so the embedding uses
structurally recursive equivalents over the underlying character
lists. -/

/-- Python `s.lower()` (character-wise lowercasing). -/
def strToLower (s : String) : String :=
  ⟨s.data.map Char.toLower⟩

/-- Python `s[:n]` style precision-truncation: the first `n`
characters. -/
def strTake (s : String) (n : Nat) : String :=
  ⟨s.data.take n⟩

/-- Python `pat in s` (substring containment) on character lists. -/
def containsSeq (pat : List Char) : List Char → Bool
  | [] => pat.isEmpty
  | c :: cs => pat.isPrefixOf (c :: cs) || containsSeq pat cs

/-- Split a character list at every separator character (Python
`str.split(sep)` keeps empty fields; `str.split()` drops them, handled
by the callers). -/
def splitOnPred (p : Char → Bool) : List Char → List (List Char)
  | [] => [[]]
  | c :: cs =>
    let rest := splitOnPred p cs
    if p c then [] :: rest
    else
      match rest with
      | [] => [[c]]
      | r :: rs => (c :: r) :: rs

/-! ## Image constants

The three image names are imported by deployment.py from the telepresence
package, whose source is not part of the repository snapshot.  Modelled
from the spec: only their identity (three distinct image variants:
OpenShift-specific, privileged, default) matters to any claim, so they
are fixed distinct strings. -/

def TELEPRESENCE_REMOTE_IMAGE : String := "telepresence-k8s"

def TELEPRESENCE_REMOTE_IMAGE_OCP : String := "telepresence-ocp"

def TELEPRESENCE_REMOTE_IMAGE_PRIV : String := "telepresence-k8s-priv"

/-! ## PortMapping.has_privileged_ports

`PortMapping` lives in telepresence/cli.py, outside the snapshot.
Modelled from the spec: the exposure set is a set of port numbers and
`has_privileged_ports` is true when any exposed port is < 1024 (this
cutoff is also stated in the docstring of `get_image_name` in
deployment.py). -/

def has_privileged_ports (expose : List Nat) : Bool :=
  expose.any (fun p => p < 1024)

/-! ## get_image_name (deployment.py lines 31-57)

`runner` only supplies the OpenShift cluster detection and the warning
sink, so the embedding takes the environment variable value (`none`
models an unset TELEPRESENCE_USE_OCP_IMAGE, defaulted to "auto" exactly
as `os.environ.get(name, "auto")` does) and the detection flag directly,
and returns the chosen image together with whether the
unrecognized-value warning was shown. -/

def ocpTrueValues : List String := ["true", "on", "yes", "1", "always"]

def ocpFalseValues : List String := ["false", "off", "no", "0", "never"]

def ocpAutoValues : List String := ["auto", "automatic", "default"]

def get_image_name (ocp_env_raw : Option String)
    (cluster_is_openshift : Bool) (expose : List Nat) : String × Bool :=
  let ocp_env_value := ocp_env_raw.getD "auto"
  let ocp_env := strToLower ocp_env_value
  if ocp_env ∈ ocpTrueValues then
    (TELEPRESENCE_REMOTE_IMAGE_OCP, false)
  else
    let ocp_image_allowed := ocp_env ∉ ocpFalseValues
    let warned := ocp_env ∉ ocpFalseValues ∧ ocp_env ∉ ocpAutoValues
    let image :=
      if ocp_image_allowed ∧ cluster_is_openshift then
        TELEPRESENCE_REMOTE_IMAGE_OCP
      else if has_privileged_ports expose then
        TELEPRESENCE_REMOTE_IMAGE_PRIV
      else
        TELEPRESENCE_REMOTE_IMAGE
    (image, decide warned)

/-! ## local-docker/entrypoint.py -/

namespace Entrypoint

/-- The three outcomes of `main` in entrypoint.py (lines 62-68): dispatch
to `proxy(loads(sys.argv[2]))`, dispatch to `wait()`, or fall through the
`if`/`elif` chain and return normally doing nothing. -/
inductive MainAction where
  | runProxy : MainAction
  | runWait : MainAction
  | noAction : MainAction
deriving DecidableEq, Repr

/-- `main` in entrypoint.py: `command = sys.argv[1]; if command == "proxy":
... elif command == "wait": ...` with no else branch. -/
def main_dispatch (command : String) : MainAction :=
  if command = "proxy" then .runProxy
  else if command = "wait" then .runWait
  else .noAction

/-- Python `line.split()`: split on whitespace runs, dropping empty
fields. -/
def pySplit (line : String) : List String :=
  ((splitOnPred Char.isWhitespace line.data).filter
    (fun s => s ≠ [])).map (fun s => ⟨s⟩)

/-- Python `ip, port = address.split(":")`: succeeds exactly when the
split has two fields (otherwise ValueError), returning the IP component. -/
def parseAddressIp (address : String) : Option String :=
  match splitOnPred (fun c => c = ':') address.data with
  | [ip, _port] => some ⟨ip⟩
  | _ => none

/-- The row filter of the netstat scan (entrypoint.py line 96): rows are
processed when `line.startswith("tcp")` and `"ESTABLISHED" in line`. -/
def isEstablishedTcpRow (line : String) : Bool :=
  "tcp".data.isPrefixOf line.data && containsSeq "ESTABLISHED".data line.data

/-- Process one filtered netstat row (entrypoint.py lines 98-105):
`parts = line.split()`, then for `address in (parts[3], parts[4])` parse
`ip, port = address.split(":")` and extend the exclusion list with
`["-x", ip]`.  `none` models the IndexError (a missing endpoint column:
the tuple `(parts[3], parts[4])` is built before the inner loop runs) or
ValueError (an address that is not exactly `ip:port`) that the `except`
clause re-raises after reporting the row. -/
def rowExclusions (line : String) : Option (List String) :=
  let parts := pySplit line
  match parts[3]?, parts[4]? with
  | some local_addr, some peer_addr =>
    match parseAddressIp local_addr, parseAddressIp peer_addr with
    | some ip1, some ip2 => some ["-x", ip1, "-x", ip2]
    | _, _ => none
  | _, _ => none

/-- Errors of the exclusion-collection step of `proxy`:
`scanFailure line` models `runner.write("Failed on line: " + line)`
followed by the re-raised IndexError/ValueError; `assertionError` models
the failure of `assert exclusions, netstat_output` (line 106). -/
inductive ProxyError where
  | scanFailure : String → ProxyError
  | assertionError : ProxyError
deriving DecidableEq, Repr

/-- The netstat loop of `proxy` (entrypoint.py lines 95-105): skip rows
failing the TCP-and-ESTABLISHED filter, abort on the first malformed
filtered row, otherwise concatenate each row's `["-x", ip]` pairs in
order. -/
def scanNetstat : List String → Except ProxyError (List String)
  | [] => .ok []
  | line :: rest =>
    if isEstablishedTcpRow line then
      match rowExclusions line with
      | some ex => (scanNetstat rest).map (fun tail => ex ++ tail)
      | none => .error (.scanFailure line)
    else
      scanNetstat rest

/-- The exclusion-collection step of `proxy` (entrypoint.py lines
91-106): seed the list with `["-x", cidr]` for each caller-declared
exclude CIDR, scan the netstat rows, then `assert exclusions`. -/
def collect_exclusions (exclude_cidrs : List String)
    (netstat_lines : List String) : Except ProxyError (List String) :=
  let base := exclude_cidrs.foldl (fun acc cidr => acc ++ ["-x", cidr]) []
  match scanNetstat netstat_lines with
  | .error e => .error e
  | .ok scanned =>
    let exclusions := base ++ scanned
    if exclusions.isEmpty then .error .assertionError else .ok exclusions

/-- Outcome of `wait` (entrypoint.py lines 119-129): `sys.exit(100)` on
success, `sys.exit(<message>)` on timeout.  A message exit is a non-100
process status (Python exits with status 1 and prints the message). -/
inductive WaitOutcome where
  | exitCode : Nat → WaitOutcome
  | exitMessage : String → WaitOutcome
deriving DecidableEq, Repr

/-- The polling loop of `wait`, with real time abstracted to
tenths-of-a-second ticks: each failed `gethostbyname` attempt advances
one tick (the `sleep(0.1)`), resolution itself is treated as
instantaneous, and the guard `time() - start < 30` becomes
`elapsed < 300` ticks, run here as fuel `300 - elapsed`.  The
`sleep(1)` after a successful attempt precedes `sys.exit(100)` but does
not change the outcome.  `resolve t` tells whether the attempt at tick
`t` resolves `kubernetes.default`. -/
def wait_loop (resolve : Nat → Bool) : Nat → Nat → WaitOutcome
  | 0, _ => .exitMessage "Failed to connect to proxy in remote cluster."
  | fuel + 1, elapsed =>
    if resolve elapsed then .exitCode 100
    else wait_loop resolve fuel (elapsed + 1)

/-- `wait` (entrypoint.py lines 119-129) under the tick abstraction:
start at elapsed time 0 with the full 30-second (300-tick) budget. -/
def wait (resolve : Nat → Bool) : WaitOutcome :=
  wait_loop resolve 300 0

end Entrypoint

/-! ## Workload descriptor model

JSON tree shape used by deployment.py: Deployment / DeploymentConfig
objects with `metadata.labels`, `spec.replicas`,
`spec.template.metadata.labels` and `spec.template.spec.containers[]`.
JSON subtrees that deployment.py only moves around whole
(probe payloads, lifecycle hooks) are abstracted to opaque `String`
payloads wrapped in `Option` (`none` models an absent key). -/

structure ContainerPort where
  containerPort : Nat
  protocol : String
deriving DecidableEq, Repr

structure EnvVar where
  name : String
  value : Option String := none
  fieldRefPath : Option String := none
deriving DecidableEq, Repr

structure Container where
  name : String
  image : String := ""
  ports : List ContainerPort := []
  args : Option (List String) := none
  livenessProbe : Option String := none
  readinessProbe : Option String := none
  workingDir : Option String := none
  lifecycle : Option String := none
  command : Option (List String) := none
  imagePullPolicy : Option String := none
  terminationMessagePolicy : Option String := none
  env : Option (List EnvVar) := none
deriving DecidableEq, Repr

structure PodSpec where
  containers : List Container
  serviceAccountName : Option String := none
deriving DecidableEq, Repr

structure ObjectMeta where
  name : String := ""
  labels : Option (List (String × String)) := none
deriving DecidableEq, Repr

structure PodTemplate where
  metadata : ObjectMeta := {}
  spec : PodSpec
deriving DecidableEq, Repr

structure WorkloadSpec where
  replicas : Nat
  template : PodTemplate
deriving DecidableEq, Repr

structure Workload where
  metadata : ObjectMeta := {}
  spec : WorkloadSpec
deriving DecidableEq, Repr

/-- Python dict assignment on an association list: overwrite the value
of an existing key, otherwise append the binding. -/
def dictSet (d : List (String × String)) (k v : String) :
    List (String × String) :=
  if d.any (fun p => p.1 = k) then
    d.map (fun p => if p.1 = k then (k, v) else p)
  else
    d ++ [(k, v)]

/-- Python `metadata.setdefault("labels", {})[k] = v`: insert an empty
dict when the key is absent, then set the binding. -/
def setLabel (labels : Option (List (String × String))) (k v : String) :
    Option (List (String × String)) :=
  some (dictSet (labels.getD []) k v)

/-- `PortMapping.merge_automatic_ports` lives in telepresence/cli.py,
outside the snapshot.  Modelled from the spec: the discovered container
TCP ports are merged into the exposure set; deployment.py passes it
`[port["containerPort"] for port in container.get("ports", []) if
port["protocol"] == "TCP"]`. -/
def merge_automatic_ports (expose : List Nat) (c : Container) : List Nat :=
  expose ++ (c.ports.filter (fun p => p.protocol = "TCP")).map
    (fun p => p.containerPort)

/-- The per-container mutations of `new_swapped_deployment`
(deployment.py lines 466-499), applied to the container whose name
matches: replace the image (chosen on the already-merged exposure set),
force `imagePullPolicy`, pop the five unneeded fields (absent fields
pass through the `except KeyError: pass`), set the fixed bootstrap
command, force `terminationMessagePolicy`, and append the optional
nameserver variable followed by the namespace-identity variable to
`env` (created empty by `setdefault` when absent). -/
def swap_container (ocp_env_raw : Option String) (cluster_is_openshift : Bool)
    (expose_merged : List Nat) (custom_nameserver : Option String)
    (c : Container) : Container :=
  let image :=
    (get_image_name ocp_env_raw cluster_is_openshift expose_merged).1
  let env0 := c.env.getD []
  let env1 :=
    match custom_nameserver with
    | some ns => env0 ++ [{ name := "TELEPRESENCE_NAMESERVER",
                            value := some ns }]
    | none => env0
  let env2 :=
    env1 ++ [{ name := "TELEPRESENCE_CONTAINER_NAMESPACE",
               fieldRefPath := some "metadata.namespace" }]
  { c with
    image := image
    imagePullPolicy := some "IfNotPresent"
    args := none
    livenessProbe := none
    readinessProbe := none
    workingDir := none
    lifecycle := none
    command := some ["/usr/src/app/run.sh"]
    terminationMessagePolicy := some "FallbackToLogsOnError"
    env := some env2 }

/-- The container loop of `new_swapped_deployment` (deployment.py lines
456-500): walk the deep-copied container list (the zipped
`old_container` is never used by the loop body), and on the first name
match merge the container ports into the exposure set, rewrite that one
container and return at once, leaving every other container as copied.
`none` models falling off the loop into the `RuntimeError`. -/
def swapContainers (ocp_env_raw : Option String)
    (cluster_is_openshift : Bool) (custom_nameserver : Option String)
    (container_to_update : String) (expose : List Nat) :
    List Container → Option (List Container × List Nat)
  | [] => none
  | c :: rest =>
    if c.name = container_to_update then
      let expose_merged := merge_automatic_ports expose c
      some (swap_container ocp_env_raw cluster_is_openshift expose_merged
              custom_nameserver c :: rest,
            expose_merged)
    else
      match swapContainers ocp_env_raw cluster_is_openshift
          custom_nameserver container_to_update expose rest with
      | some (cs, e) => some (c :: cs, e)
      | none => none

/-- Python `deepcopy`: on a pure tree value a deep copy is the value
itself — the embedding has no sharing, which is exactly the guarantee
`deepcopy` buys the Python code before it mutates the copy. -/
def deepcopy (w : Workload) : Workload := w

/-- The mutable bindings of `new_swapped_deployment`: the fetched
original (`old_deployment`), the working copy (`new_deployment_json`),
and the caller's `PortMapping` (`expose`), threaded explicitly so that
each Python statement is one update naming the binding it writes. -/
structure SwapEnv where
  old_deployment : Workload
  new_deployment_json : Workload
  expose : List Nat
deriving DecidableEq, Repr

/-- `new_swapped_deployment` (deployment.py lines 422-505), statement by
statement: deep-copy the original, force `spec.replicas` to 1, stamp the
telepresence run label on the workload metadata and on the pod-template
metadata, override `serviceAccountName` when a non-empty service account
was supplied (Python truthiness of the string), then run the container
loop; the error string models the `RuntimeError` raised when the named
container is absent (source text: "Couldn't find container {} in the
Deployment."). -/
def new_swapped_deployment (ocp_env_raw : Option String)
    (cluster_is_openshift : Bool) (old_deployment : Workload)
    (container_to_update : String) (run_id : String) (expose : List Nat)
    (service_account : String) (custom_nameserver : Option String) :
    Except String SwapEnv :=
  let env : SwapEnv :=
    { old_deployment := old_deployment
      new_deployment_json := deepcopy old_deployment
      expose := expose }
  let env := { env with new_deployment_json.spec.replicas := 1 }
  let env :=
    { env with
      new_deployment_json.metadata.labels :=
        setLabel env.new_deployment_json.metadata.labels "telepresence"
          run_id }
  let env :=
    { env with
      new_deployment_json.spec.template.metadata.labels :=
        setLabel env.new_deployment_json.spec.template.metadata.labels
          "telepresence" run_id }
  let env :=
    if service_account ≠ "" then
      { env with
        new_deployment_json.spec.template.spec.serviceAccountName :=
          some service_account }
    else env
  match swapContainers ocp_env_raw cluster_is_openshift custom_nameserver
      container_to_update env.expose
      env.new_deployment_json.spec.template.spec.containers with
  | some (cs, expose_merged) =>
    .ok { env with
          new_deployment_json.spec.template.spec.containers := cs
          expose := expose_merged }
  | none =>
    .error ("Could not find container " ++ container_to_update ++
      " in the Deployment.")

/-- The derived-name computation of `supplant_deployment` (deployment.py
lines 368-375): Python `"{name:.{max_width}s}-{id}"` with
`max_width = 50 - (len(run_id) + 1)` truncates the original name to
`max_width` characters and appends `"-" + run_id`. -/
def new_deployment_name (name run_id : String) : String :=
  strTake name (50 - (run_id.length + 1)) ++ "-" ++ run_id

/-! ## Cluster-effect traces of the three provisioning paths

For the rollback-registration invariant, each provisioning function is
embedded as the ordered trace of its externally visible cluster actions:
`register d` is a `runner.add_cleanup(d, ...)` call with description
`d`; `mutate u d` is a cluster-mutating kubectl invocation described by
`d`, where `u` names the registered cleanup that reverses it (`none`
for the idempotent pre-clean deletions, which remove leftovers of a
crashed previous session and need no reversal); `readCluster d` is a
non-mutating kubectl read. -/

inductive Event where
  | register : String → Event
  | mutate : Option String → String → Event
  | readCluster : String → Event
deriving DecidableEq, Repr

/-- `create_new_deployment` (deployment.py lines 227-309):
`add_cleanup("Delete new deployment", ...)` (line 258), the quiet
pre-clean `remove_existing_deployment(quiet=True)` (line 259),
`kubectl create -f -` (line 277), and — only when `expose.remote()` is
non-empty — `kubectl expose deployment` (line 301).  Both the create
and the expose are reversed by the registered delete-by-run-label
cleanup. -/
def create_new_deployment_trace (expose_remote_nonempty : Bool) :
    List Event :=
  [Event.register "Delete new deployment",
   Event.mutate none "delete stale svc,deploy by run label",
   Event.mutate (some "Delete new deployment") "kubectl create -f -"] ++
  (if expose_remote_nonempty then
    [Event.mutate (some "Delete new deployment")
      "kubectl expose deployment"]
  else [])

/-- `supplant_deployment` (deployment.py lines 327-419): fetch the
deployment JSON (line 351), `add_cleanup("Delete new deployment", ...)`
(line 404), the pre-clean `delete_new_deployment(False)` (line 405),
`kubectl apply -f -` of the derived workload (line 406),
`add_cleanup("Re-scale original deployment", ...)` (line 412), and
`resize_original(0)` (line 416). -/
def supplant_deployment_trace : List Event :=
  [Event.readCluster "get deployment json",
   Event.register "Delete new deployment",
   Event.mutate none "delete new deployment ignore-not-found",
   Event.mutate (some "Delete new deployment")
     "kubectl apply derived deployment",
   Event.register "Re-scale original deployment",
   Event.mutate (some "Re-scale original deployment")
     "scale original deployment to 0 replicas"]

/-- `swap_deployment_openshift` (deployment.py lines 508-586): fetch the
DeploymentConfig including triggers (line 529), strip all triggers
(line 537), re-fetch the stripped object (line 543),
`add_cleanup("Restore original deployment config", ...)` (line 568),
then `apply_json(new_dc_json)` (line 584) which performs the
`kubectl replace -f -`, the `rollout latest` and the `rollout status`
wait.  Every mutation of this path is reversed by the single restore
cleanup, which replaces the trigger-carrying snapshot and re-rolls. -/
def swap_deployment_openshift_trace : List Event :=
  [Event.readCluster "get dc json with triggers",
   Event.mutate (some "Restore original deployment config")
     "set triggers remove-all",
   Event.readCluster "get dc json after trigger strip",
   Event.register "Restore original deployment config",
   Event.mutate (some "Restore original deployment config")
     "kubectl replace swapped dc",
   Event.mutate (some "Restore original deployment config")
     "rollout latest",
   Event.readCluster "rollout status"]

/-- The claimed invariant over a trace: every cluster mutation that
needs reversal (`mutate (some u) d`) is preceded in the trace by the
registration of its inverse (`register u`). -/
def rollbackRegisteredFirst (tr : List Event) : Bool :=
  (List.range tr.length).all fun i =>
    match tr[i]? with
    | some (Event.mutate (some u) _) =>
      (tr.take i).any (fun e => e = Event.register u)
    | _ => true

/-- The mutations of a trace whose inverse is not registered before they
run, by description. -/
def uncoveredMutations (tr : List Event) : List String :=
  (List.range tr.length).filterMap fun i =>
    match tr[i]? with
    | some (Event.mutate (some u) d) =>
      if (tr.take i).any (fun e => e = Event.register u) then none
      else some d
    | _ => none

/-- The spec's image-resolution order, transcribed from its words for
comparison with `get_image_name`: an explicit "always OpenShift image"
override wins; else the OpenShift image if the cluster is detected as
OpenShift and the override does not forbid it; else the privileged
image if a privileged port is requested; else the default image. -/
def imageResolutionSpec (ocp_env_raw : Option String)
    (cluster_is_openshift : Bool) (expose : List Nat) : String :=
  let lv := strToLower (ocp_env_raw.getD "auto")
  if lv ∈ ocpTrueValues then TELEPRESENCE_REMOTE_IMAGE_OCP
  else if lv ∉ ocpFalseValues ∧ cluster_is_openshift then
    TELEPRESENCE_REMOTE_IMAGE_OCP
  else if has_privileged_ports expose then TELEPRESENCE_REMOTE_IMAGE_PRIV
  else TELEPRESENCE_REMOTE_IMAGE

/-- A concrete two-container workload, with every removable field
present on the target container, used to instantiate the universally
quantified transform theorems. -/
def exampleWorkload : Workload :=
  { metadata := { name := "myapp", labels := some [("app", "myapp")] }
    spec :=
      { replicas := 3
        template :=
          { metadata := { labels := some [("app", "myapp")] }
            spec :=
              { containers :=
                  [{ name := "sidecar" },
                   { name := "app"
                     image := "example/app:v1"
                     ports := [{ containerPort := 8080, protocol := "TCP" }]
                     args := some ["serve"]
                     livenessProbe := some "httpGet /healthz"
                     readinessProbe := some "httpGet /ready"
                     workingDir := some "/srv"
                     lifecycle := some "preStop hook"
                     env := some [{ name := "MODE", value := some "prod" }] }]
                } } } }

/-! # Theorems -/

/-- C1 counterexample: the claimed register-before-mutate invariant
fails on the OpenShift supplant path, whose trigger-stripping mutation
(deployment.py line 537) runs before the restoring cleanup is
registered (line 568). -/
theorem claim_c1_counterexample :
    rollbackRegisteredFirst swap_deployment_openshift_trace = false := by
  decide

/-- C1 (amended): the inverse rollback action is registered before the
mutation for createNew's deployment creation and service exposure and
for the native supplant's apply and scale-to-zero; on the OpenShift
supplant path the replace and re-rollout are likewise covered by the
previously registered restore cleanup, but the trigger-stripping
mutation is performed before that restore action is registered, so it
is the one mutation a failure mid-sequence would not unwind. -/
theorem claim_c1_rollback_registration_amended :
    (∀ b, rollbackRegisteredFirst (create_new_deployment_trace b) = true) ∧
    rollbackRegisteredFirst supplant_deployment_trace = true ∧
    uncoveredMutations swap_deployment_openshift_trace =
      ["set triggers remove-all"] := by
  decide

/-- C2: for every override value, cluster-detection flag and exposed
port set, `get_image_name` follows exactly the spec's resolution order
(`imageResolutionSpec`); in particular the override "never" with a
privileged port requested yields the privileged image. -/
theorem claim_c2_image_resolution_order :
    ∀ (v : Option String) (ocp : Bool) (expose : List Nat),
      (get_image_name v ocp expose).1 = imageResolutionSpec v ocp expose ∧
      (get_image_name (some "never") ocp [80]).1 =
        TELEPRESENCE_REMOTE_IMAGE_PRIV := by
  intro v ocp expose
  constructor
  · simp only [get_image_name, imageResolutionSpec]
    split_ifs <;> rfl
  · cases ocp <;> decide

/-- C8: the override value is matched case-insensitively — two values
with the same lowercasing select the same image and warning — and any
value outside the three recognized sets makes selection warn and
proceed exactly as the value "auto" would (`get_image_name` is a total
function, so a malformed value never raises). -/
theorem claim_c8_unrecognized_override_degrades_to_auto :
    ∀ (v w : String) (ocp : Bool) (expose : List Nat),
      (strToLower v = strToLower w →
        get_image_name (some v) ocp expose =
          get_image_name (some w) ocp expose) ∧
      (strToLower v ∉ ocpTrueValues → strToLower v ∉ ocpFalseValues →
        strToLower v ∉ ocpAutoValues →
        (get_image_name (some v) ocp expose).2 = true ∧
        (get_image_name (some v) ocp expose).1 =
          (get_image_name (some "auto") ocp expose).1) := by
  intro v w ocp expose
  constructor
  · intro h
    simp only [get_image_name, Option.getD, h]
  · intro h1 h2 h3
    unfold get_image_name
    simp only [Option.getD]
    rw [if_neg h1]
    constructor
    · simp [h2, h3]
    · have ha1 : strToLower "auto" ∉ ocpTrueValues := by decide
      rw [if_neg ha1]
      simp [h2, show strToLower "auto" ∉ ocpFalseValues from by decide]

/-- C8 witness: two case-variants of the unrecognized value "bogus"
select identically, and that value warns and selects exactly as "auto"
does on an OpenShift-detected cluster. -/
theorem claim_c8_witness :
    get_image_name (some "Bogus") true [] =
      get_image_name (some "bOGUS") true [] ∧
    (get_image_name (some "Bogus") true []).2 = true ∧
    (get_image_name (some "Bogus") true []).1 =
      (get_image_name (some "auto") true []).1 :=
  ⟨(claim_c8_unrecognized_override_degrades_to_auto "Bogus" "bOGUS"
      true []).1 (by decide),
   (claim_c8_unrecognized_override_degrades_to_auto "Bogus" "bOGUS"
      true []).2 (by decide) (by decide) (by decide)⟩

/-- C10: any command-line mode other than "proxy" or "wait" falls
through the dispatcher's if/elif chain: no action is taken and `main`
returns normally. -/
theorem claim_c10_unknown_mode_no_action :
    ∀ command : String, command ≠ "proxy" → command ≠ "wait" →
      Entrypoint.main_dispatch command = .noAction := by
  intro c h1 h2
  unfold Entrypoint.main_dispatch
  rw [if_neg h1, if_neg h2]

/-- C10 witness: the unrecognized mode "frobnicate" is dispatched to no
action. -/
theorem claim_c10_witness :
    Entrypoint.main_dispatch "frobnicate" = .noAction :=
  claim_c10_unknown_mode_no_action "frobnicate" (by decide) (by decide)

/-- Character-list form of the derived name: the truncated original
followed by the dash and the run label. -/
theorem new_deployment_name_data (name run_id : String) :
    (new_deployment_name name run_id).data =
      name.data.take (50 - (run_id.length + 1)) ++ ('-' :: run_id.data) := by
  show (name.data.take (50 - (run_id.length + 1)) ++ "-".data) ++
      run_id.data = _
  rw [List.append_assoc]
  rfl

/-- C4: whenever the run label leaves the format a non-negative
truncation width (as every real session id does), the derived supplant
name is within the 63-character object-name limit — the code in fact
keeps it within 50 characters — and ends with `"-" ++ run_id`. -/
theorem claim_c4_derived_name_bounded :
    ∀ name run_id : String, run_id.length + 1 ≤ 50 →
      (new_deployment_name name run_id).length ≤ 63 ∧
      ("-" ++ run_id).data <:+ (new_deployment_name name run_id).data := by
  intro name run_id h
  have h' : run_id.data.length + 1 ≤ 50 := h
  constructor
  · show (new_deployment_name name run_id).data.length ≤ 63
    rw [new_deployment_name_data]
    simp only [List.length_append, List.length_take, List.length_cons]
    have hm : min (50 - (run_id.length + 1)) name.data.length ≤
        50 - (run_id.length + 1) := Nat.min_le_left _ _
    have he : run_id.length = run_id.data.length := rfl
    omega
  · rw [new_deployment_name_data]
    show '-' :: run_id.data <:+ _
    exact List.suffix_append _ _

/-- C4 witness: a 60-character workload name with a 10-character run
label yields a within-limit name ending in the dashed run label. -/
theorem claim_c4_witness :
    (new_deployment_name
        "abcdefghijabcdefghijabcdefghijabcdefghijabcdefghijabcdefghij"
        "0123456789").length ≤ 63 ∧
    ("-" ++ "0123456789").data <:+
      (new_deployment_name
        "abcdefghijabcdefghijabcdefghijabcdefghijabcdefghijabcdefghij"
        "0123456789").data :=
  claim_c4_derived_name_bounded _ _ (by decide)

/-- A netstat snapshot none of whose rows passes the
TCP-and-ESTABLISHED filter contributes nothing to the exclusion list. -/
theorem scanNetstat_skip_all (lines : List String)
    (h : ∀ l ∈ lines, Entrypoint.isEstablishedTcpRow l = false) :
    Entrypoint.scanNetstat lines = .ok [] := by
  induction lines with
  | nil => rfl
  | cons l t ih =>
    have hl : Entrypoint.isEstablishedTcpRow l = false := h l (by simp)
    simp only [Entrypoint.scanNetstat, hl, Bool.false_eq_true, if_false]
    exact ih (fun x hx => h x (by simp [hx]))

/-- The seed fold over the declared exclude CIDRs never erases entries:
it ends non-empty whenever its accumulator or its CIDR list is. -/
theorem foldl_exclude_ne_nil :
    ∀ (cidrs acc : List String), acc ≠ [] ∨ cidrs ≠ [] →
      cidrs.foldl (fun acc c => acc ++ ["-x", c]) acc ≠ [] := by
  intro cidrs
  induction cidrs with
  | nil =>
    intro acc h
    simp only [List.foldl_nil]
    rcases h with h | h
    · exact h
    · exact absurd rfl h
  | cons c t ih =>
    intro acc _
    simp only [List.foldl_cons]
    exact ih (acc ++ ["-x", c]) (Or.inl (by simp))

/-- C5: on a connection table with no ESTABLISHED TCP rows, the
exclusion-collection step of `proxy` yields a non-empty list (and the
assertion passes) whenever at least one exclude CIDR was declared, and
raises the assertion failure instead of proceeding when none was. -/
theorem claim_c5_exclusions_nonempty_or_assert :
    ∀ (exclude_cidrs netstat_lines : List String),
      (∀ l ∈ netstat_lines, Entrypoint.isEstablishedTcpRow l = false) →
      ((exclude_cidrs ≠ [] →
        ∃ ex, Entrypoint.collect_exclusions exclude_cidrs netstat_lines =
            .ok ex ∧ ex ≠ []) ∧
       (exclude_cidrs = [] →
        Entrypoint.collect_exclusions exclude_cidrs netstat_lines =
          .error .assertionError)) := by
  intro cidrs lines h
  have hs := scanNetstat_skip_all lines h
  constructor
  · intro hne
    have hbase : cidrs.foldl (fun acc c => acc ++ ["-x", c]) [] ≠ [] :=
      foldl_exclude_ne_nil cidrs [] (Or.inr hne)
    obtain ⟨b, bs, hb⟩ : ∃ b bs,
        cidrs.foldl (fun acc c => acc ++ ["-x", c]) [] = b :: bs := by
      cases hx : cidrs.foldl (fun acc c => acc ++ ["-x", c]) [] with
      | nil => exact absurd hx hbase
      | cons b bs => exact ⟨b, bs, rfl⟩
    refine ⟨b :: (bs ++ []), ?_, by simp⟩
    simp [Entrypoint.collect_exclusions, hs, hb]
  · intro he
    subst he
    simp only [Entrypoint.collect_exclusions, hs]
    rfl

/-- C5 witness: with one declared CIDR and a snapshot holding only
non-ESTABLISHED rows the collection succeeds non-empty; with no
declared CIDR on the same snapshot it raises the assertion failure. -/
theorem claim_c5_witness :
    (∃ ex, Entrypoint.collect_exclusions ["10.0.0.0/8"]
        ["Active Internet connections",
         "udp        0      0 10.0.0.5:68 10.0.0.1:67"] = .ok ex ∧
      ex ≠ []) ∧
    Entrypoint.collect_exclusions []
        ["Active Internet connections",
         "udp        0      0 10.0.0.5:68 10.0.0.1:67"] =
      .error .assertionError :=
  ⟨(claim_c5_exclusions_nonempty_or_assert _ _ (by decide)).1 (by decide),
   (claim_c5_exclusions_nonempty_or_assert _ _ (by decide)).2 rfl⟩

/-- A filtered row that fails to parse makes the netstat scan abort
with that (or an earlier such) raw row reported. -/
theorem scanNetstat_malformed_fatal (lines : List String) (l : String)
    (hl : l ∈ lines) (hf : Entrypoint.isEstablishedTcpRow l = true)
    (hm : Entrypoint.rowExclusions l = none) :
    ∃ bad, Entrypoint.scanNetstat lines = .error (.scanFailure bad) ∧
      bad ∈ lines ∧ Entrypoint.isEstablishedTcpRow bad = true ∧
      Entrypoint.rowExclusions bad = none := by
  induction lines with
  | nil => cases hl
  | cons x t ih =>
    by_cases hx : Entrypoint.isEstablishedTcpRow x = true
    · cases hrow : Entrypoint.rowExclusions x with
      | none =>
        exact ⟨x, by simp [Entrypoint.scanNetstat, hx, hrow], by simp,
          hx, hrow⟩
      | some ex =>
        have hlt : l ∈ t := by
          rcases List.mem_cons.mp hl with heq | hmem
          · subst heq; rw [hm] at hrow; cases hrow
          · exact hmem
        obtain ⟨bad, hb1, hb2, hb3, hb4⟩ := ih hlt
        refine ⟨bad, ?_, by simp [hb2], hb3, hb4⟩
        simp [Entrypoint.scanNetstat, hx, hrow, hb1, Except.map]
    · have hlt : l ∈ t := by
        rcases List.mem_cons.mp hl with heq | hmem
        · subst heq; rw [hf] at hx; cases hx rfl
        · exact hmem
      obtain ⟨bad, hb1, hb2, hb3, hb4⟩ := ih hlt
      refine ⟨bad, ?_, by simp [hb2], hb3, hb4⟩
      simp [Entrypoint.scanNetstat, hx, hb1]

/-- C6: whenever the snapshot holds a row that passes the
TCP-and-ESTABLISHED filter but is malformed (missing endpoint column or
an address that is not exactly ip:port), the exclusion collection
aborts with a reported raw malformed row instead of silently skipping
it, regardless of the declared CIDRs. -/
theorem claim_c6_malformed_row_aborts :
    ∀ (exclude_cidrs netstat_lines : List String) (l : String),
      l ∈ netstat_lines → Entrypoint.isEstablishedTcpRow l = true →
      Entrypoint.rowExclusions l = none →
      ∃ bad, Entrypoint.collect_exclusions exclude_cidrs netstat_lines =
          .error (.scanFailure bad) ∧
        bad ∈ netstat_lines ∧ Entrypoint.isEstablishedTcpRow bad = true ∧
        Entrypoint.rowExclusions bad = none := by
  intro cidrs lines l hl hf hm
  obtain ⟨bad, hb1, hb2, hb3, hb4⟩ :=
    scanNetstat_malformed_fatal lines l hl hf hm
  exact ⟨bad, by simp [Entrypoint.collect_exclusions, hb1], hb2, hb3, hb4⟩

/-- C6 witness: an ESTABLISHED TCP row with no endpoint columns aborts
the collection with that row reported, even though a declared CIDR
would have made the exclusion list non-empty. -/
theorem claim_c6_witness :
    ∃ bad, Entrypoint.collect_exclusions ["10.0.0.0/8"]
        ["tcp        0      0 ESTABLISHED"] =
        .error (.scanFailure bad) ∧
      bad ∈ ["tcp        0      0 ESTABLISHED"] ∧
      Entrypoint.isEstablishedTcpRow bad = true ∧
      Entrypoint.rowExclusions bad = none :=
  claim_c6_malformed_row_aborts ["10.0.0.0/8"]
    ["tcp        0      0 ESTABLISHED"] "tcp        0      0 ESTABLISHED"
    (by decide) (by decide) (by decide)

/-- If some attempt within the remaining budget resolves, the wait loop
exits with the distinguished code 100. -/
theorem wait_loop_succeeds (resolve : Nat → Bool) :
    ∀ (fuel elapsed t : Nat), elapsed ≤ t → t < elapsed + fuel →
      resolve t = true →
      Entrypoint.wait_loop resolve fuel elapsed = .exitCode 100 := by
  intro fuel
  induction fuel with
  | zero => intro e t h1 h2 _; omega
  | succ f ih =>
    intro e t h1 h2 hr
    by_cases he : resolve e = true
    · simp [Entrypoint.wait_loop, he]
    · have hne : e ≠ t := fun hc => he (hc ▸ hr)
      simp only [Entrypoint.wait_loop, he, Bool.false_eq_true, if_false]
      exact ih (e + 1) t (by omega) (by omega) hr

/-- If no attempt within the remaining budget resolves, the wait loop
exits through the message path. -/
theorem wait_loop_times_out (resolve : Nat → Bool) :
    ∀ (fuel elapsed : Nat),
      (∀ t, elapsed ≤ t → t < elapsed + fuel → resolve t = false) →
      Entrypoint.wait_loop resolve fuel elapsed =
        .exitMessage "Failed to connect to proxy in remote cluster." := by
  intro fuel
  induction fuel with
  | zero => intro e _; rfl
  | succ f ih =>
    intro e h
    have he : resolve e = false := h e (Nat.le_refl e) (by omega)
    simp only [Entrypoint.wait_loop, he, Bool.false_eq_true, if_false]
    exact ih (e + 1) (fun t h1 h2 => h t (by omega) (by omega))

/-- C7: under the tick-time model of the 30-second ceiling, a DNS
resolution success at any attempt within the window makes `wait` exit
with the distinguished code 100, while a window with no success makes
it exit through the distinct message-carrying failure path, which is
never the code-100 exit. -/
theorem claim_c7_wait_exit_codes :
    ∀ resolve : Nat → Bool,
      ((∃ t, t < 300 ∧ resolve t = true) →
        Entrypoint.wait resolve = .exitCode 100) ∧
      ((∀ t, t < 300 → resolve t = false) →
        Entrypoint.wait resolve =
          .exitMessage "Failed to connect to proxy in remote cluster." ∧
        Entrypoint.WaitOutcome.exitMessage
            "Failed to connect to proxy in remote cluster." ≠
          Entrypoint.WaitOutcome.exitCode 100) := by
  intro resolve
  constructor
  · rintro ⟨t, ht, hr⟩
    exact wait_loop_succeeds resolve 300 0 t (Nat.zero_le t) (by omega) hr
  · intro h
    refine ⟨?_, by intro hc; cases hc⟩
    exact wait_loop_times_out resolve 300 0
      (fun t _ h2 => h t (by omega))

/-- C7 witness: a resolver succeeding on the sixth attempt exits 100; a
resolver that never succeeds exits with the diagnostic message. -/
theorem claim_c7_witness :
    Entrypoint.wait (fun t => t == 5) = .exitCode 100 ∧
    Entrypoint.wait (fun _ => false) =
      .exitMessage "Failed to connect to proxy in remote cluster." :=
  ⟨(claim_c7_wait_exit_codes (fun t => t == 5)).1 ⟨5, by decide, by decide⟩,
   ((claim_c7_wait_exit_codes (fun _ => false)).2 (fun _ _ => rfl)).1⟩

/-- The per-container rewrite does not touch the container's name. -/
theorem swap_container_name (a : Option String) (b : Bool) (e : List Nat)
    (ns : Option String) (c : Container) :
    (swap_container a b e ns c).name = c.name := rfl

/-- When some container carries the target name, the container loop
succeeds and the first container of the result carrying that name is
the rewritten one, with all five removable fields absent. -/
theorem swapContainers_found (ocp : Option String) (cluster : Bool)
    (ns : Option String) (target : String) (expose : List Nat) :
    ∀ cs : List Container, (cs.any fun c => c.name == target) = true →
      ∃ cs' e',
        swapContainers ocp cluster ns target expose cs = some (cs', e') ∧
        ∃ c', cs'.find? (fun c => c.name == target) = some c' ∧
          c'.args = none ∧ c'.livenessProbe = none ∧
          c'.readinessProbe = none ∧ c'.workingDir = none ∧
          c'.lifecycle = none := by
  intro cs
  induction cs with
  | nil => intro h; simp at h
  | cons c rest ih =>
    intro h
    by_cases hc : c.name = target
    · refine ⟨swap_container ocp cluster (merge_automatic_ports expose c)
        ns c :: rest, merge_automatic_ports expose c,
        by simp [swapContainers, hc], ?_⟩
      refine ⟨swap_container ocp cluster (merge_automatic_ports expose c)
        ns c, ?_, rfl, rfl, rfl, rfl, rfl⟩
      exact List.find?_cons_of_pos _ (by simp [swap_container_name, hc])
    · have hrest : (rest.any fun x => x.name == target) = true := by
        simp only [List.any_cons, Bool.or_eq_true] at h
        rcases h with h | h
        · exact absurd (by simpa using h) hc
        · exact h
      obtain ⟨cs', e', h1, c', h2, h3, h4, h5, h6, h7⟩ := ih hrest
      refine ⟨c :: cs', e', by simp [swapContainers, hc, h1], c', ?_,
        h3, h4, h5, h6, h7⟩
      rw [List.find?_cons_of_neg _ (by simp [hc])]
      exact h2

/-- C3: for every workload whose pod template holds a container with the
target name — with zero, one or all of the five removable fields set —
the derived-workload transform succeeds (absence of a field is not an
error), and in its output the container it updated carries none of
`args`, `livenessProbe`, `readinessProbe`, `workingDir`, `lifecycle`. -/
theorem claim_c3_swapped_container_drops_fields :
    ∀ (ocp_env_raw : Option String) (cluster : Bool) (old : Workload)
      (target run_id : String) (expose : List Nat) (sa : String)
      (ns : Option String),
      (old.spec.template.spec.containers.any fun c => c.name == target) =
        true →
      ∃ env', new_swapped_deployment ocp_env_raw cluster old target
          run_id expose sa ns = .ok env' ∧
        ∃ c',
          env'.new_deployment_json.spec.template.spec.containers.find?
            (fun c => c.name == target) = some c' ∧
          c'.args = none ∧ c'.livenessProbe = none ∧
          c'.readinessProbe = none ∧ c'.workingDir = none ∧
          c'.lifecycle = none := by
  intro ocp cluster old target rid expose sa ns h
  obtain ⟨cs', e', h1, c', h2, h3, h4, h5, h6, h7⟩ :=
    swapContainers_found ocp cluster ns target expose
      old.spec.template.spec.containers h
  by_cases hsa : sa = "" <;>
    · simp only [new_swapped_deployment, hsa, ne_eq, not_true_eq_false,
        not_false_eq_true, if_true, if_false, ite_true, ite_false,
        deepcopy]
      rw [h1]
      exact ⟨_, rfl, c', h2, h3, h4, h5, h6, h7⟩

/-- C3 witness: on the concrete two-container workload, targeting its
"app" container (which carries all five fields), the transform
succeeds and the resulting "app" container carries none of them. -/
theorem claim_c3_witness :
    ∃ env', new_swapped_deployment none false exampleWorkload "app"
        "runid" [] "" none = .ok env' ∧
      ∃ c',
        env'.new_deployment_json.spec.template.spec.containers.find?
          (fun c => c.name == "app") = some c' ∧
        c'.args = none ∧ c'.livenessProbe = none ∧
        c'.readinessProbe = none ∧ c'.workingDir = none ∧
        c'.lifecycle = none :=
  claim_c3_swapped_container_drops_fields none false exampleWorkload
    "app" "runid" [] "" none (by decide)

/-- C9: the derived-workload transform works on a deep copy — whatever
it returns, the retained original workload binding is the workload that
was passed in, unchanged in every field, so it remains valid for later
restoration.  Stated over `Except.map` so that it covers the success
case unconditionally: on an `ok` result the projection
`SwapEnv.old_deployment` is the untouched input. -/
theorem claim_c9_original_workload_preserved :
    ∀ (ocp_env_raw : Option String) (cluster : Bool) (old : Workload)
      (target run_id : String) (expose : List Nat) (sa : String)
      (ns : Option String),
      (new_swapped_deployment ocp_env_raw cluster old target run_id
          expose sa ns).map SwapEnv.old_deployment =
        (new_swapped_deployment ocp_env_raw cluster old target run_id
            expose sa ns).map (fun _ => old) := by
  intro ocp cluster old target rid expose sa ns
  by_cases hsa : sa = "" <;>
    simp only [new_swapped_deployment, hsa, ne_eq, not_true_eq_false,
      not_false_eq_true, if_true, if_false, ite_true, ite_false,
      deepcopy] <;>
    cases hsw : swapContainers ocp cluster ns target expose
      old.spec.template.spec.containers <;>
    simp [hsw, Except.map]

end Telepresence
